import Mathlib

/-!
CAN force/torque subsystem (`src/can_subsystem.c`)

A shallow embedding of the C translation unit.  The file's global variables
become the fields of `State`; every call that has an effect outside the
translation unit (console output, driver commands, kernel services) is
appended to `State.trace`, in program order.  Values the program obtains from
its environment (the device binding, driver return codes, sampled controller
state) are arguments of the embedded functions.

The embedding is sequential: each C function runs to completion.  The critical
sections guarded by `ftMutex` are therefore executed as written, without the
lock itself being represented.
-/

namespace CanSubsystem

/-! ## Kernel and driver declarations used by the source -/

/-- Modelled from the spec: the driver's `enum can_state`, whose declaration is
in the driver header; the spec lists it as error-active, error-passive,
bus-off, unknown. -/
inductive can_state where
  | CAN_ERROR_ACTIVE
  | CAN_ERROR_PASSIVE
  | CAN_BUS_OFF
  | CAN_BUS_UNKNOWN
  deriving DecidableEq, Repr

/-- Modelled from the spec: the driver's `struct can_bus_err_cnt`, an
error-count snapshot with the transmit and receive error counters. -/
structure can_bus_err_cnt where
  tx_err_cnt : Nat
  rx_err_cnt : Nat
  deriving DecidableEq, Repr

/-- Modelled from the spec: the driver's `struct zcan_frame` (BusFrame):
identifier type, direction flag, identifier, declared data length and the
eight payload bytes `data[0..7]`.  The C member `data_32` is a union view of
the same eight bytes, see `data_32`. -/
structure zcan_frame where
  id_type : Nat
  rtr : Nat
  id : Nat
  dlc : Nat
  data : Fin 8 → Fin 256

/-- Driver constant `CAN_STANDARD_IDENTIFIER`. -/
def CAN_STANDARD_IDENTIFIER : Nat := 0

/-- Driver constant `CAN_DATAFRAME`. -/
def CAN_DATAFRAME : Nat := 0

/-- Driver constant `CAN_MAX_DLEN`. -/
def CAN_MAX_DLEN : Nat := 8

/-- Kernel timeout macro `K_MSEC`.  The source compares `K_MSEC(100)` with the
integer `0`, which is only well typed when a timeout is a plain integer number
of milliseconds; that representation is used here. -/
def K_MSEC (ms : Int) : Int := ms

/-- Kernel timeout constant `K_FOREVER` in the integer representation. -/
def K_FOREVER : Int := -1

/-- Kernel timeout constant `K_NO_WAIT` in the integer representation. -/
def K_NO_WAIT : Int := 0

/-! ## Constants of the source -/

def STATE_POLL_THREAD_PRIORITY : Int := 2

def SLEEP_TIME : Int := K_MSEC 250

def FT_ID : Nat := 0x1b0

/-! ## Effects and global state -/

/-- Receive filter handed to the driver (`struct zcan_filter`). -/
structure zcan_filter where
  id_type : Nat
  rtr : Nat
  id : Nat
  rtr_mask : Nat
  id_mask : Nat
  deriving DecidableEq, Repr

/-- Calls that leave the translation unit, in the order they are made. -/
inductive Event where
  | printk (msg : String)
  | k_sleep (timeout : Int)
  | k_work_init
  | k_work_submit
  | can_recover (timeout : Int)
  | can_attach_workq (filter : zcan_filter)
  | k_thread_create (priority : Int) (delay : Int)
  | can_register_state_change_isr
  | can_send (frame : zcan_frame) (timeout : Int) (arg : String)

/-- Compile-time configuration switches tested by the source. -/
structure Config where
  CANFESTIVAL_ZEPHYR_DEBUG : Bool
  CONFIG_CAN_AUTO_BUS_OFF_RECOVERY : Bool
  deriving DecidableEq, Repr

/-- The global variables of the translation unit, plus the effect trace. -/
structure State where
  forces : Fin 3 → Int
  torques : Fin 3 → Int
  current_state : can_state
  current_err_cnt : can_bus_err_cnt
  can_dev : Option Nat
  trace : List Event

/-- Static storage is zero-initialised before the program starts. -/
def State.init : State where
  forces := fun _ => 0
  torques := fun _ => 0
  current_state := can_state.CAN_ERROR_ACTIVE
  current_err_cnt := ⟨0, 0⟩
  can_dev := none
  trace := []

/-- Console output. -/
def State.printk (st : State) (msg : String) : State :=
  { st with trace := st.trace ++ [Event.printk msg] }

/-- Any other outgoing call. -/
def State.emit (st : State) (e : Event) : State :=
  { st with trace := st.trace ++ [e] }

/-! ## Machine arithmetic -/

/-- The `uint32_t` member `data_32[w]` of the payload union on the
little-endian host: bytes `4w .. 4w+3`, least significant first. -/
def data_32 (frame : zcan_frame) (w : Fin 2) : Nat :=
  (frame.data ⟨4 * w.val, by omega⟩).val
    + 2 ^ 8 * (frame.data ⟨4 * w.val + 1, by omega⟩).val
    + 2 ^ 16 * (frame.data ⟨4 * w.val + 2, by omega⟩).val
    + 2 ^ 24 * (frame.data ⟨4 * w.val + 3, by omega⟩).val

/-- The libc byte swap on a 32-bit unsigned word. -/
def __bswap_32 (x : Nat) : Nat :=
  (x % 2 ^ 8) * 2 ^ 24 + (x / 2 ^ 8 % 2 ^ 8) * 2 ^ 16
    + (x / 2 ^ 16 % 2 ^ 8) * 2 ^ 8 + (x / 2 ^ 24 % 2 ^ 8)

/-- The cast `(int32_t)` applied to a `uint32_t`: two's complement
reinterpretation. -/
def to_int32 (x : Nat) : Int :=
  if x % 2 ^ 32 < 2 ^ 31 then ((x % 2 ^ 32 : Nat) : Int)
  else ((x % 2 ^ 32 : Nat) : Int) - 2 ^ 32

/-- Array store `a[i] = v` into a three-element `int32_t` array. -/
def store3 (a : Fin 3 → Int) (i : Nat) (v : Int) : Fin 3 → Int :=
  fun j => if j.val = i then v else a j

/-! ## Console formatting -/

/-- Hexadecimal digits of a number, as `%x` prints them. -/
def hex (n : Nat) : String := String.mk (Nat.toDigits 16 n)

/-- Left padding of a conversion to a minimum field width. -/
def pad_left (c : Char) (width : Nat) (s : String) : String :=
  String.mk (List.replicate (width - s.length) c) ++ s

/-- Text produced by `print_frame`. -/
def print_frame_text (frame : zcan_frame) : String :=
  "|0x" ++ pad_left ' ' 3 (hex frame.id) ++ "|"
    ++ (if frame.rtr ≠ 0 then "RTR" else "   ") ++ "|"
    ++ toString frame.dlc ++ "|"
    ++ String.join ((List.finRange 8).map fun i =>
        if i.val < frame.dlc then " 0x" ++ pad_left '0' 2 (hex (frame.data i).val)
        else "     ")
    ++ "|\n"

/-- Debug helper `print_frame`. -/
def print_frame (frame : zcan_frame) (st : State) : State :=
  st.printk (print_frame_text frame)

/-! ## Telemetry cache -/

/-- `get_ft_values`: copies the three forces to `dst[0..2]` and the three
torques to `dst[3..5]`.  Returns the state after the call and the buffer. -/
def get_ft_values (st : State) (_dst : Fin 6 → Int) : State × (Fin 6 → Int) :=
  (st, fun j =>
    if h : j.val < 3 then st.forces ⟨j.val, h⟩
    else st.torques ⟨j.val - 3, by omega⟩)

/-- Body of the `for` loop of `receive_change_led` for one value of `i`. -/
def receive_change_led_body (frame : zcan_frame) (st : State) (i : Nat) : State :=
  if frame.id = FT_ID + i then
    let f := data_32 frame 0
    let st1 := { st with forces := store3 st.forces (i - 1) (to_int32 (__bswap_32 f)) }
    let t := data_32 frame 1
    { st1 with torques := store3 st1.torques (i - 1) (to_int32 (__bswap_32 t)) }
  else st

/-- `receive_change_led`: the receive callback.  The loop runs `i = 1, 2, 3`. -/
def receive_change_led (cfg : Config) (frame : zcan_frame) (st : State) : State :=
  let st1 := [1, 2, 3].foldl (receive_change_led_body frame) st
  if cfg.CANFESTIVAL_ZEPHYR_DEBUG then
    print_frame frame (st1.printk " CAN_RECEIVE: ")
  else st1

/-! ## Transmit completion -/

/-- `tx_irq_callback`: reports a failed transmission together with the tag the
sender supplied. -/
def tx_irq_callback (error_flags : Nat) (arg : String) (st : State) : State :=
  if error_flags ≠ 0 then
    st.printk ("Callback! error-code: " ++ toString (to_int32 error_flags)
      ++ "\nSender: " ++ arg ++ "\n")
  else st

/-! ## Bus health monitoring -/

/-- `state_to_str`. -/
def state_to_str (state : can_state) : String :=
  match state with
  | can_state.CAN_ERROR_ACTIVE => "error-active"
  | can_state.CAN_ERROR_PASSIVE => "error-passive"
  | can_state.CAN_BUS_OFF => "bus-off"
  | _ => "unknown"

/-- Local variables of `poll_state_thread`, except `state`, which is assigned
at the top of every iteration. -/
structure PollLocals where
  err_cnt : can_bus_err_cnt
  err_cnt_prev : can_bus_err_cnt
  state_prev : can_state
  deriving DecidableEq, Repr

/-- Initial values of the locals of `poll_state_thread`. -/
def PollLocals.init : PollLocals where
  err_cnt := ⟨0, 0⟩
  err_cnt_prev := ⟨0, 0⟩
  state_prev := can_state.CAN_ERROR_ACTIVE

/-- One iteration of the `while (1)` loop of `poll_state_thread`.  The pair
`sample` is what `can_get_state` returns and stores through its pointer. -/
def poll_state_iter (sample : can_state × can_bus_err_cnt) (loc : PollLocals)
    (st : State) : PollLocals × State :=
  let state := sample.1
  let loc1 := { loc with err_cnt := sample.2 }
  if loc1.err_cnt.tx_err_cnt ≠ loc1.err_cnt_prev.tx_err_cnt ∨
      loc1.err_cnt.rx_err_cnt ≠ loc1.err_cnt_prev.rx_err_cnt ∨
      loc1.state_prev ≠ state then
    let loc2 := { loc1 with
      err_cnt_prev := ⟨loc1.err_cnt.tx_err_cnt, loc1.err_cnt.rx_err_cnt⟩ }
    let loc3 := { loc2 with state_prev := state }
    (loc3, st.printk ("state: " ++ state_to_str state
      ++ "\nrx error count: " ++ toString loc3.err_cnt.rx_err_cnt
      ++ "\ntx error count: " ++ toString loc3.err_cnt.tx_err_cnt ++ "\n"))
  else
    (loc1, st.emit (Event.k_sleep (K_MSEC 100)))

/-- `poll_state_thread`, run for as many iterations as there are samples. -/
def poll_state_thread (samples : List (can_state × can_bus_err_cnt))
    (st : State) : PollLocals × State :=
  samples.foldl (fun acc sample => poll_state_iter sample acc.1 acc.2)
    (PollLocals.init, st)

/-- `state_change_work_handler`.  `recover_ret` is the value `can_recover`
returns if it is called. -/
def state_change_work_handler (cfg : Config) (recover_ret : Int) (st : State) : State :=
  let st1 := st.printk ("State Change ISR\nstate: " ++ state_to_str st.current_state
    ++ "\nrx error count: " ++ toString st.current_err_cnt.rx_err_cnt
    ++ "\ntx error count: " ++ toString st.current_err_cnt.tx_err_cnt ++ "\n")
  if cfg.CONFIG_CAN_AUTO_BUS_OFF_RECOVERY then st1
  else if st1.current_state = can_state.CAN_BUS_OFF then
    let st2 := st1.printk "Recover from bus-off\n"
    let st3 := st2.emit (Event.can_recover (if K_MSEC 100 ≠ 0 then 1 else 0))
    if recover_ret ≠ 0 then st3.printk "Recovery timed out\n" else st3
  else st1

/-- `state_change_isr`. -/
def state_change_isr (state : can_state) (err_cnt : can_bus_err_cnt) (st : State) : State :=
  let st1 := { st with current_state := state }
  let st2 := { st1 with current_err_cnt := err_cnt }
  st2.emit Event.k_work_submit

/-! ## Request scheduler -/

/-- What `main_can_ati_thread` obtains from the kernel and the driver while it
initialises: the device binding, the value returned by `can_attach_workq`, the
driver's `CAN_NO_FREE_FILTER` code, and whether `k_thread_create` returned a
thread id. -/
structure MainEnv where
  binding : Option Nat
  attach_ret : Int
  CAN_NO_FREE_FILTER : Int
  get_state_tid : Bool
  deriving DecidableEq, Repr

/-- How far `main_can_ati_thread` got: it returned, or it is in its
`while (1)` loop. -/
inductive Exit where
  | returned
  | looping
  deriving DecidableEq, Repr

/-- The filter `my_filter`. -/
def my_filter : zcan_filter where
  id_type := CAN_STANDARD_IDENTIFIER
  rtr := CAN_DATAFRAME
  id := 0x1
  rtr_mask := 0
  id_mask := 0x0

/-- The initialiser of the local `req_long_data_frame`; members that are not
named are zero. -/
def req_long_data_frame : zcan_frame where
  id_type := CAN_STANDARD_IDENTIFIER
  rtr := CAN_DATAFRAME
  id := FT_ID
  dlc := 1
  data := fun _ => 0

/-- The `while (1)` loop of `main_can_ati_thread`, one cycle per element of
`outcomes`.  An element is the error code the driver passes to the completion
callback `tx_irq_callback` while the thread sleeps, or `none` when the callback
does not run in that cycle. -/
def main_loop : List (Option Nat) → zcan_frame → State → zcan_frame × State
  | [], frame, st => (frame, st)
  | o :: rest, frame, st =>
    let frame1 := { frame with data := Function.update frame.data 0 0x01 }
    let st1 := st.emit (Event.can_send frame1 K_FOREVER "LED change")
    let st2 := st1.emit (Event.k_sleep SLEEP_TIME)
    let st3 := match o with
      | some error_flags => tx_irq_callback error_flags "LED change" st2
      | none => st2
    main_loop rest frame1 st3

/-- `main_can_ati_thread`. -/
def main_can_ati_thread (env : MainEnv) (outcomes : List (Option Nat))
    (st : State) : Exit × State :=
  let st1 := { st with can_dev := env.binding }
  if st1.can_dev.isNone then
    (Exit.returned, st1.printk "CAN: Device driver not found.\n")
  else
    let st2 := st1.emit Event.k_work_init
    let st3 := st2.emit (Event.can_attach_workq my_filter)
    let ret := env.attach_ret
    if ret = env.CAN_NO_FREE_FILTER then
      (Exit.returned, st3.printk "Error, no filter available!\n")
    else
      let st4 := st3.printk ("Change LED filter ID: " ++ toString ret ++ "\n")
      let st5 := st4.emit (Event.k_thread_create STATE_POLL_THREAD_PRIORITY K_NO_WAIT)
      let st6 := if env.get_state_tid then st5
        else st5.printk "ERROR spawning poll_state_thread\n"
      let st7 := st6.emit Event.can_register_state_change_isr
      let st8 := st7.printk "Finished init.\n"
      (Exit.looping, (main_loop outcomes req_long_data_frame st8).2)

/-! ## Reference decoding, following the wire format of the specification -/

/-- Unsigned value of four bytes in big-endian (network) order. -/
def be_u32 (b0 b1 b2 b3 : Nat) : Nat :=
  b0 * 2 ^ 24 + b1 * 2 ^ 16 + b2 * 2 ^ 8 + b3

/-- Signed 32-bit two's complement value of four bytes in big-endian order. -/
def be_i32 (b0 b1 b2 b3 : Nat) : Int :=
  if be_u32 b0 b1 b2 b3 < 2 ^ 31 then (be_u32 b0 b1 b2 b3 : Int)
  else (be_u32 b0 b1 b2 b3 : Int) - 2 ^ 32

/-- Force carried by a telemetry frame: payload bytes 0-3. -/
def frame_force (frame : zcan_frame) : Int :=
  be_i32 (frame.data 0).val (frame.data 1).val (frame.data 2).val (frame.data 3).val

/-- Torque carried by a telemetry frame: payload bytes 4-7. -/
def frame_torque (frame : zcan_frame) : Int :=
  be_i32 (frame.data 4).val (frame.data 5).val (frame.data 6).val (frame.data 7).val

/-- Last frame of a sequence addressed to axis group `k` (identifier
`0x1b0 + k`), if there is one. -/
def last_frame_for (k : Nat) : List zcan_frame → Option zcan_frame
  | [] => none
  | frame :: rest =>
    match last_frame_for k rest with
    | some later => some later
    | none => if frame.id = 0x1b0 + k then some frame else none

/-- The solicitation frame of the specification: standard identifier `0x1b0`,
data frame, length 1, first payload byte `0x01`. -/
def solicitation : zcan_frame where
  id_type := CAN_STANDARD_IDENTIFIER
  rtr := CAN_DATAFRAME
  id := 0x1b0
  dlc := 1
  data := fun i => if i = 0 then 0x01 else 0

/-- Events of a successful initialisation, in order. -/
def startup_events (env : MainEnv) : List Event :=
  [Event.k_work_init, Event.can_attach_workq my_filter,
    Event.printk ("Change LED filter ID: " ++ toString env.attach_ret ++ "\n"),
    Event.k_thread_create 2 0]
    ++ (if env.get_state_tid then []
        else [Event.printk "ERROR spawning poll_state_thread\n"])
    ++ [Event.can_register_state_change_isr, Event.printk "Finished init.\n"]

/-- Events of one cycle of the transmit loop: the send, the 250 ms sleep, and
the completion report when the driver signals a failure. -/
def cycle_events (o : Option Nat) : List Event :=
  [Event.can_send solicitation K_FOREVER "LED change", Event.k_sleep 250]
    ++ (match o with
        | some error_flags =>
          if error_flags ≠ 0 then
            [Event.printk ("Callback! error-code: " ++ toString (to_int32 error_flags)
              ++ "\nSender: " ++ "LED change" ++ "\n")]
          else []
        | none => [])

/-- Events of the transmit loop, one cycle per element of `outcomes`. -/
def loop_events : List (Option Nat) → List Event
  | [] => []
  | o :: rest => cycle_events o ++ loop_events rest

/-- Events by which the subsystem starts running: spawning the polling thread,
registering the state-change notifier, transmitting a frame. -/
def Event.starts_subsystem : Event → Bool
  | Event.k_thread_create _ _ => true
  | Event.can_register_state_change_isr => true
  | Event.can_send _ _ _ => true
  | _ => false

/-- Frame transmissions. -/
def Event.is_can_send : Event → Bool
  | Event.can_send _ _ _ => true
  | _ => false

/-- Recovery requests to the controller. -/
def Event.is_can_recover : Event → Bool
  | Event.can_recover _ => true
  | _ => false

/-! ## Sequences of calls -/

/-- The driver delivering frames to the receive callback, one after another. -/
def receive_frames (cfg : Config) (frames : List zcan_frame) (st : State) : State :=
  frames.foldl (fun s frame => receive_change_led cfg frame s) st

/-- The driver raising state-change notifications, one after another. -/
def state_change_isrs (notes : List (can_state × can_bus_err_cnt)) (st : State) : State :=
  notes.foldl (fun s n => state_change_isr n.1 n.2 s) st

/-- Consecutive `get_ft_values` calls, one per caller buffer, with no frame
received in between.  Returns the final state and the buffers in call order. -/
def get_ft_values_seq : List (Fin 6 → Int) → State → State × List (Fin 6 → Int)
  | [], st => (st, [])
  | dst :: rest, st =>
    let r := get_ft_values st dst
    let rs := get_ft_values_seq rest r.1
    (rs.1, r.2 :: rs.2)

/-! ## Concrete inputs -/

/-- Telemetry frame at `0x1b1` with payload `00 00 03 E8 FF FF FC 18`. -/
def example_frame : zcan_frame where
  id_type := CAN_STANDARD_IDENTIFIER
  rtr := CAN_DATAFRAME
  id := 0x1b1
  dlc := 8
  data := ![0x00, 0x00, 0x03, 0xE8, 0xFF, 0xFF, 0xFC, 0x18]

/-- Frame at `0x1b1` declaring four data bytes `00 00 03 E8`. -/
def short_frame : zcan_frame where
  id_type := CAN_STANDARD_IDENTIFIER
  rtr := CAN_DATAFRAME
  id := 0x1b1
  dlc := 4
  data := ![0x00, 0x00, 0x03, 0xE8, 0x00, 0x00, 0x00, 0x00]

/-- Frame at `0x1b2` with payload `00 00 00 07 FF FF FF FE`. -/
def second_frame : zcan_frame where
  id_type := CAN_STANDARD_IDENTIFIER
  rtr := CAN_DATAFRAME
  id := 0x1b2
  dlc := 8
  data := ![0x00, 0x00, 0x00, 0x07, 0xFF, 0xFF, 0xFF, 0xFE]

/-- Frame at `0x1b1` with payload `00 00 00 01 00 00 00 02`. -/
def earlier_frame : zcan_frame where
  id_type := CAN_STANDARD_IDENTIFIER
  rtr := CAN_DATAFRAME
  id := 0x1b1
  dlc := 8
  data := ![0x00, 0x00, 0x00, 0x01, 0x00, 0x00, 0x00, 0x02]

/-- Frame with an identifier outside the telemetry range. -/
def foreign_frame : zcan_frame where
  id_type := CAN_STANDARD_IDENTIFIER
  rtr := CAN_DATAFRAME
  id := 0x1b4
  dlc := 8
  data := ![0x01, 0x02, 0x03, 0x04, 0x05, 0x06, 0x07, 0x08]

/-- Configuration without debug output and without automatic recovery. -/
def plain_config : Config := ⟨false, false⟩

/-- A state in which the controller has been reported bus-off. -/
def bus_off_state : State :=
  { State.init with
    current_state := can_state.CAN_BUS_OFF
    current_err_cnt := ⟨256, 0⟩
    can_dev := some 0 }

/-- An environment in which initialisation succeeds. -/
def good_env : MainEnv := ⟨some 0, 0, -1, true⟩

/-- An environment without a CAN device. -/
def no_device_env : MainEnv := ⟨none, 0, -1, true⟩

/-- An environment in which the driver has no free filter. -/
def no_filter_env : MainEnv := ⟨some 0, -1, -1, true⟩

/-! ## Decoding lemmas -/

theorem bswap_le_word (b0 b1 b2 b3 : Nat) (h0 : b0 < 256) (h1 : b1 < 256)
    (h2 : b2 < 256) (h3 : b3 < 256) :
    to_int32 (__bswap_32 (b0 + 2 ^ 8 * b1 + 2 ^ 16 * b2 + 2 ^ 24 * b3))
      = be_i32 b0 b1 b2 b3 := by
  have e : __bswap_32 (b0 + 2 ^ 8 * b1 + 2 ^ 16 * b2 + 2 ^ 24 * b3)
      = be_u32 b0 b1 b2 b3 := by
    unfold __bswap_32 be_u32
    norm_num
    omega
  have hlt : be_u32 b0 b1 b2 b3 < 2 ^ 32 := by
    unfold be_u32
    norm_num
    omega
  rw [e]
  unfold to_int32 be_i32
  rw [Nat.mod_eq_of_lt hlt]

theorem decode_force (frame : zcan_frame) :
    to_int32 (__bswap_32 (data_32 frame 0)) = frame_force frame := by
  unfold data_32 frame_force
  exact bswap_le_word _ _ _ _ (frame.data 0).isLt (frame.data 1).isLt
    (frame.data 2).isLt (frame.data 3).isLt

theorem decode_torque (frame : zcan_frame) :
    to_int32 (__bswap_32 (data_32 frame 1)) = frame_torque frame := by
  unfold data_32 frame_torque
  exact bswap_le_word _ _ _ _ (frame.data 4).isLt (frame.data 5).isLt
    (frame.data 6).isLt (frame.data 7).isLt

/-! ## Effect of the receive callback on the cache -/

theorem receive_forces (cfg : Config) (frame : zcan_frame) (st : State) (j : Fin 3) :
    (receive_change_led cfg frame st).forces j
      = if frame.id = FT_ID + (j.val + 1) then frame_force frame else st.forces j := by
  rw [← decode_force]
  have hid : FT_ID = 432 := rfl
  unfold receive_change_led print_frame State.printk
  simp only [List.foldl, receive_change_led_body, hid]
  fin_cases j <;> split_ifs <;> simp_all [store3]

theorem receive_torques (cfg : Config) (frame : zcan_frame) (st : State) (j : Fin 3) :
    (receive_change_led cfg frame st).torques j
      = if frame.id = FT_ID + (j.val + 1) then frame_torque frame else st.torques j := by
  rw [← decode_torque]
  have hid : FT_ID = 432 := rfl
  unfold receive_change_led print_frame State.printk
  simp only [List.foldl, receive_change_led_body, hid]
  fin_cases j <;> split_ifs <;> simp_all [store3]

theorem get_ft_values_state (st : State) (dst : Fin 6 → Int) :
    (get_ft_values st dst).1 = st := rfl

theorem get_ft_values_force (st : State) (dst : Fin 6 → Int) (n : Nat) (h : n < 3) :
    (get_ft_values st dst).2 ⟨n, by omega⟩ = st.forces ⟨n, h⟩ := by
  simp [get_ft_values, h]

theorem get_ft_values_torque (st : State) (dst : Fin 6 → Int) (n : Nat) (h3 : 3 ≤ n)
    (h : n < 6) :
    (get_ft_values st dst).2 ⟨n, h⟩ = st.torques ⟨n - 3, by omega⟩ := by
  have hn : ¬ n < 3 := by omega
  simp [get_ft_values, hn]

theorem receive_frames_forces (cfg : Config) (frames : List zcan_frame) :
    ∀ (st : State) (j : Fin 3),
      (receive_frames cfg frames st).forces j
        = match last_frame_for (j.val + 1) frames with
          | some frame => frame_force frame
          | none => st.forces j := by
  induction frames with
  | nil => intro st j; rfl
  | cons frame rest ih =>
    intro st j
    have hstep : receive_frames cfg (frame :: rest) st
        = receive_frames cfg rest (receive_change_led cfg frame st) := rfl
    rw [hstep, ih, receive_forces]
    simp only [last_frame_for]
    cases last_frame_for (j.val + 1) rest with
    | some later => rfl
    | none =>
      have hid : FT_ID = 0x1b0 := rfl
      rw [hid]
      split_ifs <;> rfl

theorem receive_frames_torques (cfg : Config) (frames : List zcan_frame) :
    ∀ (st : State) (j : Fin 3),
      (receive_frames cfg frames st).torques j
        = match last_frame_for (j.val + 1) frames with
          | some frame => frame_torque frame
          | none => st.torques j := by
  induction frames with
  | nil => intro st j; rfl
  | cons frame rest ih =>
    intro st j
    have hstep : receive_frames cfg (frame :: rest) st
        = receive_frames cfg rest (receive_change_led cfg frame st) := rfl
    rw [hstep, ih, receive_torques]
    simp only [last_frame_for]
    cases last_frame_for (j.val + 1) rest with
    | some later => rfl
    | none =>
      have hid : FT_ID = 0x1b0 := rfl
      rw [hid]
      split_ifs <;> rfl

theorem get_ft_values_seq_spec (dsts : List (Fin 6 → Int)) (st : State) :
    (get_ft_values_seq dsts st).1 = st
      ∧ (get_ft_values_seq dsts st).2.length = dsts.length
      ∧ ∀ out ∈ (get_ft_values_seq dsts st).2, ∀ dst, out = (get_ft_values st dst).2 := by
  induction dsts with
  | nil => exact ⟨rfl, rfl, by intro out h; cases h⟩
  | cons dst rest ih =>
    obtain ⟨h1, h2, h3⟩ := ih
    refine ⟨?_, ?_, ?_⟩
    · simpa [get_ft_values_seq, get_ft_values_state] using h1
    · simpa [get_ft_values_seq, get_ft_values_state] using h2
    · intro out hout dst0
      simp only [get_ft_values_seq, get_ft_values_state, List.mem_cons] at hout
      rcases hout with h | h
      · rw [h]; rfl
      · exact h3 out h dst0

/-! ## Telemetry claims -/

/-- C1: for every cache state and every frame whose identifier is `0x1b0 + k`
with `k` in 1..3 and whose length is at least 8, `receive_change_led` followed
by `get_ft_values` yields a buffer whose entry `k-1` is the big-endian signed
word of payload bytes 0-3, whose entry `3+k-1` is the big-endian signed word of
payload bytes 4-7, and whose four entries of the other two axis groups equal
what `get_ft_values` returned before the frame. -/
theorem receive_then_read (cfg : Config) (st : State) (frame : zcan_frame)
    (dst : Fin 6 → Int) (k : Nat) (hk : 1 ≤ k ∧ k ≤ 3)
    (hid : frame.id = 0x1b0 + k) (_hlen : 8 ≤ frame.dlc) :
    (get_ft_values (receive_change_led cfg frame st) dst).2 ⟨k - 1, by omega⟩
        = frame_force frame
      ∧ (get_ft_values (receive_change_led cfg frame st) dst).2 ⟨3 + k - 1, by omega⟩
        = frame_torque frame
      ∧ ∀ j : Fin 3, j.val ≠ k - 1 →
          (get_ft_values (receive_change_led cfg frame st) dst).2 ⟨j.val, by omega⟩
              = (get_ft_values st dst).2 ⟨j.val, by omega⟩
            ∧ (get_ft_values (receive_change_led cfg frame st) dst).2 ⟨3 + j.val, by omega⟩
              = (get_ft_values st dst).2 ⟨3 + j.val, by omega⟩ := by
  have hF : FT_ID = 0x1b0 := rfl
  obtain ⟨h1, h3⟩ := hk
  refine ⟨?_, ?_, ?_⟩
  · rw [get_ft_values_force _ _ (k - 1) (by omega), receive_forces]
    exact if_pos (by show frame.id = FT_ID + (k - 1 + 1); omega)
  · rw [get_ft_values_torque _ _ (3 + k - 1) (by omega) (by omega), receive_torques]
    exact if_pos (by show frame.id = FT_ID + (3 + k - 1 - 3 + 1); omega)
  · intro j hj
    rw [get_ft_values_force _ _ j.val j.isLt, get_ft_values_force _ _ j.val j.isLt,
      get_ft_values_torque _ _ (3 + j.val) (by omega) (by omega),
      get_ft_values_torque _ _ (3 + j.val) (by omega) (by omega),
      receive_forces, receive_torques]
    exact ⟨if_neg (by show ¬ frame.id = FT_ID + (j.val + 1); omega),
      if_neg (by show ¬ frame.id = FT_ID + (3 + j.val - 3 + 1); omega)⟩

/-- C1 at the frame `0x1b1` with payload `00 00 03 E8 FF FF FC 18` on the
all-zero cache: the buffer read back is `[1000, 0, 0, -1000, 0, 0]`. -/
theorem receive_then_read_witness :
    (1 ≤ 1 ∧ 1 ≤ 3) ∧ example_frame.id = 0x1b0 + 1 ∧ 8 ≤ example_frame.dlc
      ∧ (get_ft_values (receive_change_led plain_config example_frame State.init)
          (fun _ => 0)).2 ⟨1 - 1, by omega⟩ = frame_force example_frame
      ∧ (get_ft_values (receive_change_led plain_config example_frame State.init)
          (fun _ => 0)).2 ⟨3 + 1 - 1, by omega⟩ = frame_torque example_frame
      ∧ ∀ i : Fin 6,
          (get_ft_values (receive_change_led plain_config example_frame State.init)
            (fun _ => 0)).2 i = ![1000, 0, 0, -1000, 0, 0] i :=
  ⟨by decide, rfl, by decide,
    (receive_then_read plain_config State.init example_frame (fun _ => 0) 1
      (by decide) rfl (by decide)).1,
    (receive_then_read plain_config State.init example_frame (fun _ => 0) 1
      (by decide) rfl (by decide)).2.1,
    by decide⟩

/-- C2 does not hold as stated: the frame `0x1b1` declaring only four data
bytes (`dlc = 4`, bytes `00 00 03 E8`) is not dropped; from the all-zero cache
it sets `forces[0]` to 1000. -/
theorem short_frame_is_cached :
    short_frame.id = 0x1b0 + 1 ∧ short_frame.dlc < 8
      ∧ State.init.forces 0 = 0
      ∧ (receive_change_led plain_config short_frame State.init).forces 0 = 1000
      ∧ (receive_change_led plain_config short_frame State.init).forces
          ≠ State.init.forces := by
  refine ⟨rfl, by decide, rfl, by decide, ?_⟩
  intro h
  have h0 := congrFun h 0
  revert h0
  decide

/-- C2 as amended: for a frame whose identifier is `0x1b0 + k` with `k` in 1..3
and whose declared length is less than 8, `receive_change_led` does not
consult the length: it overwrites `forces[k-1]` and `torques[k-1]` with the
big-endian signed words held in bytes 0-3 and 4-7 of the frame's payload
buffer and leaves the other four cached values unchanged. -/
theorem short_frame_overwrites_group (cfg : Config) (st : State) (frame : zcan_frame)
    (k : Nat) (hk : 1 ≤ k ∧ k ≤ 3) (hid : frame.id = 0x1b0 + k)
    (_hlen : frame.dlc < 8) :
    (receive_change_led cfg frame st).forces ⟨k - 1, by omega⟩ = frame_force frame
      ∧ (receive_change_led cfg frame st).torques ⟨k - 1, by omega⟩ = frame_torque frame
      ∧ ∀ j : Fin 3, j.val ≠ k - 1 →
          (receive_change_led cfg frame st).forces j = st.forces j
            ∧ (receive_change_led cfg frame st).torques j = st.torques j := by
  have hF : FT_ID = 0x1b0 := rfl
  obtain ⟨h1, h3⟩ := hk
  refine ⟨?_, ?_, ?_⟩
  · rw [receive_forces]
    exact if_pos (by show frame.id = FT_ID + (k - 1 + 1); omega)
  · rw [receive_torques]
    exact if_pos (by show frame.id = FT_ID + (k - 1 + 1); omega)
  · intro j hj
    rw [receive_forces, receive_torques]
    exact ⟨if_neg (by omega), if_neg (by omega)⟩

/-- The amended C2 at the four-byte frame `0x1b1` on the all-zero cache. -/
theorem short_frame_overwrites_group_witness :
    (1 ≤ 1 ∧ 1 ≤ 3) ∧ short_frame.id = 0x1b0 + 1 ∧ short_frame.dlc < 8
      ∧ (receive_change_led plain_config short_frame State.init).forces ⟨1 - 1, by omega⟩
          = frame_force short_frame
      ∧ frame_force short_frame = 1000 :=
  ⟨by decide, rfl, by decide,
    (short_frame_overwrites_group plain_config State.init short_frame 1
      (by decide) rfl (by decide)).1,
    by decide⟩

/-- C3: for every cache state and every frame whose identifier is none of
`0x1b1`, `0x1b2`, `0x1b3`, whatever its length and payload,
`receive_change_led` leaves all six cached values unchanged, and a following
`get_ft_values` returns the same six integers as before the frame. -/
theorem foreign_frame_ignored (cfg : Config) (st : State) (frame : zcan_frame)
    (dst : Fin 6 → Int)
    (hid : frame.id ≠ 0x1b1 ∧ frame.id ≠ 0x1b2 ∧ frame.id ≠ 0x1b3) :
    (receive_change_led cfg frame st).forces = st.forces
      ∧ (receive_change_led cfg frame st).torques = st.torques
      ∧ (get_ft_values (receive_change_led cfg frame st) dst).2
          = (get_ft_values st dst).2 := by
  have hF : FT_ID = 0x1b0 := rfl
  obtain ⟨h1, h2, h3⟩ := hid
  have hf : (receive_change_led cfg frame st).forces = st.forces := by
    funext j
    rw [receive_forces]
    exact if_neg (by have := j.isLt; omega)
  have ht : (receive_change_led cfg frame st).torques = st.torques := by
    funext j
    rw [receive_torques]
    exact if_neg (by have := j.isLt; omega)
  refine ⟨hf, ht, ?_⟩
  unfold get_ft_values
  simp only [hf, ht]

/-- C3 at a frame with identifier `0x1b4` on the all-zero cache. -/
theorem foreign_frame_ignored_witness :
    (foreign_frame.id ≠ 0x1b1 ∧ foreign_frame.id ≠ 0x1b2 ∧ foreign_frame.id ≠ 0x1b3)
      ∧ (receive_change_led plain_config foreign_frame State.init).forces
          = State.init.forces
      ∧ (receive_change_led plain_config foreign_frame State.init).torques
          = State.init.torques
      ∧ (get_ft_values (receive_change_led plain_config foreign_frame State.init)
          (fun _ => 0)).2 = (get_ft_values State.init (fun _ => 0)).2 :=
  ⟨by decide,
    foreign_frame_ignored plain_config State.init foreign_frame (fun _ => 0) (by decide)⟩

/-- C5: for every cache state, `get_ft_values` writes the three forces into
`dst[0..2]` and the three torques into `dst[3..5]`, in that order, and does
not change the state; consequently any number of consecutive calls with no
frame in between return buffers all equal to the one a single call returns. -/
theorem get_ft_values_reads_cache (st : State) (dst : Fin 6 → Int) :
    (get_ft_values st dst).1 = st
      ∧ (∀ j : Fin 3,
          (get_ft_values st dst).2 ⟨j.val, by omega⟩ = st.forces j
            ∧ (get_ft_values st dst).2 ⟨3 + j.val, by omega⟩ = st.torques j)
      ∧ ∀ dsts : List (Fin 6 → Int),
          (get_ft_values_seq dsts st).1 = st
            ∧ (get_ft_values_seq dsts st).2.length = dsts.length
            ∧ ∀ out ∈ (get_ft_values_seq dsts st).2, out = (get_ft_values st dst).2 := by
  refine ⟨rfl, ?_, ?_⟩
  · intro j
    constructor
    · exact get_ft_values_force st dst j.val j.isLt
    · rw [get_ft_values_torque st dst (3 + j.val) (by omega) (by omega)]
      congr 1
      exact Fin.ext (by show 3 + j.val - 3 = j.val; omega)
  · intro dsts
    obtain ⟨h1, h2, h3⟩ := get_ft_values_seq_spec dsts st
    exact ⟨h1, h2, fun out hout => h3 out hout dst⟩

/-- C5 on a cache holding `[1000, 0, 0, -1000, 0, 0]`, read three times into
buffers with different previous contents. -/
theorem get_ft_values_reads_cache_witness :
    (get_ft_values_seq [fun _ => 0, fun _ => 7, fun _ => -1]
        (receive_change_led plain_config example_frame State.init)).2.length = 3
      ∧ ∀ out ∈ (get_ft_values_seq [fun _ => 0, fun _ => 7, fun _ => -1]
          (receive_change_led plain_config example_frame State.init)).2,
          out = (get_ft_values (receive_change_led plain_config example_frame State.init)
            (fun _ => 5)).2 :=
  ⟨((get_ft_values_reads_cache (receive_change_led plain_config example_frame State.init)
      (fun _ => 5)).2.2 [fun _ => 0, fun _ => 7, fun _ => -1]).2.1,
    ((get_ft_values_reads_cache (receive_change_led plain_config example_frame State.init)
      (fun _ => 5)).2.2 [fun _ => 0, fun _ => 7, fun _ => -1]).2.2⟩

/-- C6: for every finite sequence of valid telemetry frames (identifier one of
`0x1b1`, `0x1b2`, `0x1b3`, length at least 8) processed one after another by
`receive_change_led` from any cache state, a final `get_ft_values` returns,
for each axis group `k`, the force and torque decoded from the last frame of
the sequence with identifier `0x1b0 + k`, and the initial values of group `k`
when no frame of the sequence targets it. -/
theorem last_frame_per_group_wins (cfg : Config) (st : State) (frames : List zcan_frame)
    (dst : Fin 6 → Int)
    (_hvalid : ∀ frame ∈ frames,
      (frame.id = 0x1b1 ∨ frame.id = 0x1b2 ∨ frame.id = 0x1b3) ∧ 8 ≤ frame.dlc)
    (k : Nat) (hk : 1 ≤ k ∧ k ≤ 3) :
    (get_ft_values (receive_frames cfg frames st) dst).2 ⟨k - 1, by omega⟩
        = (match last_frame_for k frames with
          | some frame => frame_force frame
          | none => st.forces ⟨k - 1, by omega⟩)
      ∧ (get_ft_values (receive_frames cfg frames st) dst).2 ⟨3 + k - 1, by omega⟩
        = (match last_frame_for k frames with
          | some frame => frame_torque frame
          | none => st.torques ⟨k - 1, by omega⟩) := by
  obtain ⟨h1, h3⟩ := hk
  have hk1 : last_frame_for (k - 1 + 1) frames = last_frame_for k frames := by
    congr 1
    omega
  constructor
  · rw [get_ft_values_force _ _ (k - 1) (by omega), receive_frames_forces]
    show (match last_frame_for (k - 1 + 1) frames with
      | some frame => frame_force frame
      | none => st.forces ⟨k - 1, by omega⟩) = _
    rw [hk1]
  · rw [get_ft_values_torque _ _ (3 + k - 1) (by omega) (by omega), receive_frames_torques]
    have e : (⟨3 + k - 1 - 3, by omega⟩ : Fin 3) = ⟨k - 1, by omega⟩ :=
      Fin.ext (by show 3 + k - 1 - 3 = k - 1; omega)
    rw [e]
    show (match last_frame_for (k - 1 + 1) frames with
      | some frame => frame_torque frame
      | none => st.torques ⟨k - 1, by omega⟩) = _
    rw [hk1]

/-- C6 on the interleaving `0x1b1, 0x1b2, 0x1b1` from the all-zero cache: group
1 shows its last frame (1000 and -1000, not 1 and 2), group 2 the only frame
addressed to it (7 and -2), group 3 its initial zeros. -/
theorem last_frame_per_group_wins_witness :
    (∀ frame ∈ [earlier_frame, second_frame, example_frame],
        (frame.id = 0x1b1 ∨ frame.id = 0x1b2 ∨ frame.id = 0x1b3) ∧ 8 ≤ frame.dlc)
      ∧ (1 ≤ 1 ∧ 1 ≤ 3)
      ∧ (get_ft_values (receive_frames plain_config
          [earlier_frame, second_frame, example_frame] State.init)
          (fun _ => 0)).2 ⟨1 - 1, by omega⟩
          = (match last_frame_for 1 [earlier_frame, second_frame, example_frame] with
            | some frame => frame_force frame
            | none => State.init.forces ⟨1 - 1, by omega⟩)
      ∧ ∀ i : Fin 6,
          (get_ft_values (receive_frames plain_config
            [earlier_frame, second_frame, example_frame] State.init)
            (fun _ => 0)).2 i = ![1000, 7, 0, -1000, -2, 0] i :=
  ⟨by decide, by decide,
    (last_frame_per_group_wins plain_config State.init
      [earlier_frame, second_frame, example_frame] (fun _ => 0) (by decide) 1
      (by decide)).1,
    by decide⟩

/-! ## Bus health claims -/

theorem state_change_isrs_snoc (notes : List (can_state × can_bus_err_cnt))
    (state : can_state) (err_cnt : can_bus_err_cnt) (st : State) :
    state_change_isrs (notes ++ [(state, err_cnt)]) st
      = state_change_isr state err_cnt (state_change_isrs notes st) := by
  simp [state_change_isrs, List.foldl_append]

theorem state_change_isrs_trace (notes : List (can_state × can_bus_err_cnt)) :
    ∀ st : State, (state_change_isrs notes st).trace
      = st.trace ++ List.replicate notes.length Event.k_work_submit := by
  induction notes with
  | nil => intro st; simp [state_change_isrs]
  | cons n rest ih =>
    intro st
    have hstep : state_change_isrs (n :: rest) st
        = state_change_isrs rest (state_change_isr n.1 n.2 st) := rfl
    rw [hstep, ih]
    simp [state_change_isr, State.emit, List.replicate_succ]

theorem state_change_work_handler_log (cfg : Config) (recover_ret : Int) (st : State) :
    ∃ rest, (state_change_work_handler cfg recover_ret st).trace
      = st.trace ++ Event.printk ("State Change ISR\nstate: "
          ++ state_to_str st.current_state
          ++ "\nrx error count: " ++ toString st.current_err_cnt.rx_err_cnt
          ++ "\ntx error count: " ++ toString st.current_err_cnt.tx_err_cnt ++ "\n")
        :: rest := by
  have hk : (if K_MSEC 100 ≠ 0 then (1 : Int) else 0) = 1 := by decide
  unfold state_change_work_handler
  simp only [State.printk, State.emit, hk]
  split_ifs <;> simp only [List.append_assoc, List.singleton_append] <;> exact ⟨_, rfl⟩

/-- C4 evaluated on the code: with automatic recovery disabled and
`current_state` bus-off, one run of `state_change_work_handler` makes exactly
one `can_recover` call, and the timeout it passes is the truth value of
`K_MSEC(100) != 0`, which is 1 and not the 100 ms of `K_MSEC(100)`; when the
call reports a failure the handler logs it and makes no second call. -/
theorem bus_off_recovery_request :
    (state_change_work_handler plain_config (-11) bus_off_state).trace
        = [Event.printk ("State Change ISR\nstate: " ++ state_to_str can_state.CAN_BUS_OFF
            ++ "\nrx error count: " ++ toString 0
            ++ "\ntx error count: " ++ toString 256 ++ "\n"),
          Event.printk "Recover from bus-off\n",
          Event.can_recover 1,
          Event.printk "Recovery timed out\n"]
      ∧ (state_change_work_handler plain_config 0 bus_off_state).trace
        = [Event.printk ("State Change ISR\nstate: " ++ state_to_str can_state.CAN_BUS_OFF
            ++ "\nrx error count: " ++ toString 0
            ++ "\ntx error count: " ++ toString 256 ++ "\n"),
          Event.printk "Recover from bus-off\n",
          Event.can_recover 1]
      ∧ (1 : Int) ≠ K_MSEC 100 := by
  refine ⟨rfl, rfl, ?_⟩
  decide

/-- C7: for every controller state and error-count pair, `state_change_isr`
sets `current_state` and `current_err_cnt` to its two arguments and makes one
outgoing call, the submission of the work item (no console output, no recovery
request); after any sequence of notifications ending with that pair the
deferred handler starts by logging the state and error counts of that last
notification. -/
theorem state_change_isr_last_wins (state : can_state) (err_cnt : can_bus_err_cnt)
    (st : State) :
    (state_change_isr state err_cnt st).current_state = state
      ∧ (state_change_isr state err_cnt st).current_err_cnt = err_cnt
      ∧ (state_change_isr state err_cnt st).trace = st.trace ++ [Event.k_work_submit]
      ∧ ∀ (notes : List (can_state × can_bus_err_cnt)) (cfg : Config) (recover_ret : Int),
          (state_change_isrs (notes ++ [(state, err_cnt)]) st).current_state = state
            ∧ (state_change_isrs (notes ++ [(state, err_cnt)]) st).current_err_cnt = err_cnt
            ∧ (state_change_isrs (notes ++ [(state, err_cnt)]) st).trace
                = st.trace ++ List.replicate (notes.length + 1) Event.k_work_submit
            ∧ ∃ rest, (state_change_work_handler cfg recover_ret
                  (state_change_isrs (notes ++ [(state, err_cnt)]) st)).trace
                = (state_change_isrs (notes ++ [(state, err_cnt)]) st).trace
                  ++ Event.printk ("State Change ISR\nstate: " ++ state_to_str state
                      ++ "\nrx error count: " ++ toString err_cnt.rx_err_cnt
                      ++ "\ntx error count: " ++ toString err_cnt.tx_err_cnt ++ "\n")
                    :: rest := by
  refine ⟨rfl, rfl, rfl, ?_⟩
  intro notes cfg recover_ret
  have hs : (state_change_isrs (notes ++ [(state, err_cnt)]) st).current_state = state := by
    rw [state_change_isrs_snoc]; rfl
  have he : (state_change_isrs (notes ++ [(state, err_cnt)]) st).current_err_cnt
      = err_cnt := by
    rw [state_change_isrs_snoc]; rfl
  refine ⟨hs, he, ?_, ?_⟩
  · rw [state_change_isrs_trace]
    simp
  · obtain ⟨rest, hrest⟩ := state_change_work_handler_log cfg recover_ret
      (state_change_isrs (notes ++ [(state, err_cnt)]) st)
    rw [hs, he] at hrest
    exact ⟨rest, hrest⟩

/-- C10: one iteration of the polling loop.  When the sample equals the
previous snapshot in state, transmit count and receive count, the iteration
logs nothing, keeps the snapshot and sleeps 100 ms; when a component differs
it logs the sample and makes the snapshot equal to the sample, so that a
following iteration with the same sample sleeps; in both cases it makes one
outgoing call, which is no recovery request, and leaves `current_state` and
`current_err_cnt` as they were. -/
theorem poll_state_iter_step (sample : can_state × can_bus_err_cnt) (loc : PollLocals)
    (st : State) :
    ((sample.1 = loc.state_prev ∧ sample.2.tx_err_cnt = loc.err_cnt_prev.tx_err_cnt
          ∧ sample.2.rx_err_cnt = loc.err_cnt_prev.rx_err_cnt) →
        (poll_state_iter sample loc st).2.trace = st.trace ++ [Event.k_sleep 100]
          ∧ (poll_state_iter sample loc st).1.state_prev = loc.state_prev
          ∧ (poll_state_iter sample loc st).1.err_cnt_prev = loc.err_cnt_prev)
      ∧ (¬ (sample.1 = loc.state_prev ∧ sample.2.tx_err_cnt = loc.err_cnt_prev.tx_err_cnt
          ∧ sample.2.rx_err_cnt = loc.err_cnt_prev.rx_err_cnt) →
        (poll_state_iter sample loc st).2.trace
            = st.trace ++ [Event.printk ("state: " ++ state_to_str sample.1
                ++ "\nrx error count: " ++ toString sample.2.rx_err_cnt
                ++ "\ntx error count: " ++ toString sample.2.tx_err_cnt ++ "\n")]
          ∧ (poll_state_iter sample loc st).1.state_prev = sample.1
          ∧ (poll_state_iter sample loc st).1.err_cnt_prev = sample.2
          ∧ (poll_state_iter sample (poll_state_iter sample loc st).1
                (poll_state_iter sample loc st).2).2.trace
              = (poll_state_iter sample loc st).2.trace ++ [Event.k_sleep 100])
      ∧ (poll_state_iter sample loc st).2.current_state = st.current_state
      ∧ (poll_state_iter sample loc st).2.current_err_cnt = st.current_err_cnt
      ∧ ∃ e, (poll_state_iter sample loc st).2.trace = st.trace ++ [e]
          ∧ e.is_can_recover = false := by
  obtain ⟨state, tx, rx⟩ := sample
  obtain ⟨cnt, ⟨ptx, prx⟩, sp⟩ := loc
  by_cases h : state = sp ∧ tx = ptx ∧ rx = prx
  · obtain ⟨h1, h2, h3⟩ := h
    subst h1 h2 h3
    simp [poll_state_iter, State.emit, State.printk, K_MSEC, Event.is_can_recover]
  · have hc : tx ≠ ptx ∨ rx ≠ prx ∨ sp ≠ state := by
      by_contra hn
      push_neg at hn
      exact h ⟨hn.2.2.symm, hn.1, hn.2.1⟩
    simp [poll_state_iter, State.emit, State.printk, K_MSEC, Event.is_can_recover, h, hc]

/-- C10 on two iterations from the initial locals: a first sample
(error-passive, tx 128, rx 0) differs from the snapshot and is logged; the same
sample again makes the loop sleep. -/
theorem poll_state_iter_step_witness :
    ¬ (can_state.CAN_ERROR_PASSIVE = PollLocals.init.state_prev
        ∧ 128 = PollLocals.init.err_cnt_prev.tx_err_cnt
        ∧ 0 = PollLocals.init.err_cnt_prev.rx_err_cnt)
      ∧ (poll_state_iter (can_state.CAN_ERROR_PASSIVE, ⟨128, 0⟩) PollLocals.init
            State.init).1.state_prev = can_state.CAN_ERROR_PASSIVE
      ∧ (poll_state_iter (can_state.CAN_ERROR_PASSIVE, ⟨128, 0⟩)
            (poll_state_iter (can_state.CAN_ERROR_PASSIVE, ⟨128, 0⟩) PollLocals.init
              State.init).1
            (poll_state_iter (can_state.CAN_ERROR_PASSIVE, ⟨128, 0⟩) PollLocals.init
              State.init).2).2.trace
          = (poll_state_iter (can_state.CAN_ERROR_PASSIVE, ⟨128, 0⟩) PollLocals.init
              State.init).2.trace ++ [Event.k_sleep 100] :=
  ⟨by decide,
    ((poll_state_iter_step (can_state.CAN_ERROR_PASSIVE, ⟨128, 0⟩) PollLocals.init
      State.init).2.1 (by decide)).2.1,
    ((poll_state_iter_step (can_state.CAN_ERROR_PASSIVE, ⟨128, 0⟩) PollLocals.init
      State.init).2.1 (by decide)).2.2.2⟩

/-! ## Request scheduler claims -/

theorem req_long_data_frame_refresh :
    ({ req_long_data_frame with
        data := Function.update req_long_data_frame.data 0 0x01 } : zcan_frame)
      = solicitation := by
  have h : Function.update req_long_data_frame.data 0 0x01 = solicitation.data := by
    funext i
    by_cases hi : i = 0 <;> simp [Function.update, req_long_data_frame, solicitation, hi]
  rw [h]
  rfl

theorem solicitation_refresh :
    ({ solicitation with data := Function.update solicitation.data 0 0x01 } : zcan_frame)
      = solicitation := by
  have h : Function.update solicitation.data 0 0x01 = solicitation.data := by
    funext i
    by_cases hi : i = 0 <;> simp [Function.update, solicitation, hi]
  rw [h]

theorem tx_irq_callback_trace (o : Option Nat) (st : State) :
    (match o with
      | some error_flags => tx_irq_callback error_flags "LED change" st
      | none => st).trace
      = st.trace ++ (cycle_events o).drop 2 := by
  cases o with
  | none => simp [cycle_events]
  | some error_flags =>
    by_cases h : error_flags = 0
    · simp [tx_irq_callback, cycle_events, h]
    · simp only [tx_irq_callback, cycle_events, State.printk]
      rw [if_pos h, if_pos h]
      rfl

theorem main_loop_trace (outcomes : List (Option Nat)) :
    ∀ (frame : zcan_frame) (st : State),
      ({ frame with data := Function.update frame.data 0 0x01 } : zcan_frame) = solicitation →
      (main_loop outcomes frame st).2.trace = st.trace ++ loop_events outcomes := by
  induction outcomes with
  | nil => intro frame st _; simp [main_loop, loop_events]
  | cons o rest ih =>
    intro frame st hframe
    unfold main_loop
    simp only [hframe]
    rw [ih solicitation _ solicitation_refresh, tx_irq_callback_trace]
    simp [State.emit, loop_events, cycle_events, SLEEP_TIME, K_MSEC]

/-- C8: once initialisation has succeeded, the events of `main_can_ati_thread`
are those of the start-up followed, for every cycle of the loop, by one
`can_send` of the solicitation frame (standard identifier `0x1b0`, data frame,
length 1, first payload byte `0x01`) and a 250 ms sleep, with nothing but the
completion report of a failed send in between; the frame is the same in every
cycle whatever the outcomes of the sends. -/
theorem transmit_loop_sends_solicitation (env : MainEnv) (outcomes : List (Option Nat))
    (st : State) (hdev : env.binding ≠ none)
    (hflt : env.attach_ret ≠ env.CAN_NO_FREE_FILTER) :
    (main_can_ati_thread env outcomes st).1 = Exit.looping
      ∧ (main_can_ati_thread env outcomes st).2.trace
          = st.trace ++ startup_events env ++ loop_events outcomes
      ∧ (∀ e ∈ startup_events env, e.is_can_send = false)
      ∧ (∀ o : Option Nat,
          (cycle_events o).take 2
              = [Event.can_send solicitation K_FOREVER "LED change",
                  Event.k_sleep SLEEP_TIME]
            ∧ ∀ e ∈ (cycle_events o).drop 2, e.is_can_send = false)
      ∧ solicitation.id_type = CAN_STANDARD_IDENTIFIER
      ∧ solicitation.rtr = CAN_DATAFRAME
      ∧ solicitation.id = 0x1b0 ∧ solicitation.dlc = 1 ∧ solicitation.data 0 = 0x01
      ∧ SLEEP_TIME = 250 := by
  have hsome : env.binding.isNone = false := by
    cases hb : env.binding with
    | none => exact absurd hb hdev
    | some d => rfl
  refine ⟨?_, ?_, ?_, ?_, rfl, rfl, rfl, rfl, rfl, rfl⟩
  · simp [main_can_ati_thread, hsome, hflt]
  · simp only [main_can_ati_thread, hsome, hflt, if_false, Bool.false_eq_true]
    rw [main_loop_trace _ _ _ req_long_data_frame_refresh]
    cases hg : env.get_state_tid <;>
      simp [startup_events, State.emit, State.printk, STATE_POLL_THREAD_PRIORITY, K_NO_WAIT,
        hg]
  · cases hg : env.get_state_tid <;> simp [startup_events, hg, Event.is_can_send]
  · intro o
    constructor
    · cases o <;> rfl
    · intro e he
      cases o with
      | none => simp [cycle_events] at he
      | some error_flags =>
        by_cases h : error_flags = 0
        · simp [cycle_events, h] at he
        · simp [cycle_events, h] at he
          subst he
          rfl

/-- C8 on three cycles whose second send fails with error code 5: the events
after the start-up are send, sleep, send, sleep, failure report, send, sleep,
every send carrying the same frame. -/
theorem transmit_loop_sends_solicitation_witness :
    good_env.binding ≠ none ∧ good_env.attach_ret ≠ good_env.CAN_NO_FREE_FILTER
      ∧ (main_can_ati_thread good_env [none, some 5, none] State.init).2.trace
          = State.init.trace ++ startup_events good_env
              ++ loop_events [none, some 5, none]
      ∧ (loop_events [none, some 5, none]).map Event.is_can_send
          = [true, false, true, false, false, true, false] :=
  ⟨by decide, by decide,
    (transmit_loop_sends_solicitation good_env [none, some 5, none] State.init
      (by decide) (by decide)).2.1,
    rfl⟩

/-- C9: when the device handle is unavailable, or `can_attach_workq` returns
`CAN_NO_FREE_FILTER`, `main_can_ati_thread` logs the failure and returns; the
calls it has made are the log line alone, or the work-item initialisation, the
filter subscription and the log line, so it has neither spawned the polling
thread, nor registered the state-change notifier, nor sent a frame. -/
theorem init_failure_returns (env : MainEnv) (outcomes : List (Option Nat)) (st : State)
    (h : env.binding = none ∨ env.attach_ret = env.CAN_NO_FREE_FILTER) :
    (main_can_ati_thread env outcomes st).1 = Exit.returned
      ∧ ∃ evs, (main_can_ati_thread env outcomes st).2.trace = st.trace ++ evs
          ∧ (evs = [Event.printk "CAN: Device driver not found.\n"]
              ∨ evs = [Event.k_work_init, Event.can_attach_workq my_filter,
                  Event.printk "Error, no filter available!\n"])
          ∧ ∀ e ∈ evs, e.starts_subsystem = false := by
  cases hb : env.binding with
  | none =>
    refine ⟨by simp [main_can_ati_thread, hb], [Event.printk "CAN: Device driver not found.\n"],
      by simp [main_can_ati_thread, hb, State.printk], Or.inl rfl, ?_⟩
    intro e he
    simp at he
    subst he
    rfl
  | some d =>
    have hflt : env.attach_ret = env.CAN_NO_FREE_FILTER := by
      rcases h with h | h
      · rw [hb] at h; cases h
      · exact h
    refine ⟨by simp [main_can_ati_thread, hb, hflt],
      [Event.k_work_init, Event.can_attach_workq my_filter,
        Event.printk "Error, no filter available!\n"],
      by simp [main_can_ati_thread, hb, hflt, State.printk, State.emit], Or.inr rfl, ?_⟩
    intro e he
    simp at he
    rcases he with h | h | h <;> subst h <;> rfl

/-- C9 without a device, and with a device but no free filter. -/
theorem init_failure_returns_witness :
    (no_device_env.binding = none
        ∨ no_device_env.attach_ret = no_device_env.CAN_NO_FREE_FILTER)
      ∧ (main_can_ati_thread no_device_env [none, none] State.init).1 = Exit.returned
      ∧ (no_filter_env.binding = none
        ∨ no_filter_env.attach_ret = no_filter_env.CAN_NO_FREE_FILTER)
      ∧ (main_can_ati_thread no_filter_env [none, none] State.init).1 = Exit.returned :=
  ⟨by decide,
    (init_failure_returns no_device_env [none, none] State.init (by decide)).1,
    by decide,
    (init_failure_returns no_filter_env [none, none] State.init (by decide)).1⟩

end CanSubsystem
